import Mathlib

/-!
Verification of the orchestration layer of `app/main.py` (a FastAPI
RAG service).  The first-party logic of the source file is embedded
shallowly: pure helpers become Lean functions, the external
collaborators (blob store, document loaders, text splitter, pgvector
store, generative model) become a record of fallible operations, and
the two endpoint handlers become functions that also return the set of
temporary files left on disk and a trace of collaborator calls.
-/

deriving instance DecidableEq for Except

/-- Python exception values as they matter to the handlers: either a
FastAPI `HTTPException(status_code, detail)` or any other exception,
kept as its `str(e)` message. -/
inductive Exc where
  | httpExc (status : Nat) (detail : String)
  | err (msg : String)
deriving DecidableEq

/-- `str(e)` for an exception: Starlette renders an `HTTPException`
as `"<status>: <detail>"`; any other exception is its message. -/
def Exc.str : Exc → String
  | .httpExc s d => toString s ++ ": " ++ d
  | .err m => m

/-- The closed set of loader classes appearing in `SUPPORTED_FORMATS`. -/
inductive Loader where
  | pyPDFLoader
  | docx2txtLoader
  | unstructuredPowerPointLoader
  | unstructuredCSVLoader
  | jsonLoader
  | textLoader
deriving DecidableEq

/-- A langchain document; only `page_content` is observed by the code. -/
structure Document where
  page_content : String
deriving DecidableEq

/-- The process environment as read by `app/main.py`: `none` means the
variable is unset, `some s` means it is set to `s` (possibly empty). -/
structure EnvVars where
  gemini_api_key : Option String
  gcs_bucket_name : Option String
  database_url : Option String
  db_host : Option String
  db_port : Option String
  db_name : Option String
  db_user : Option String
  db_password : Option String
deriving DecidableEq

/-- Python truthiness of an `os.getenv` result: `None` and the empty
string are falsy, every other string is truthy. -/
def truthy : Option String → Bool
  | none => false
  | some s => !(s == "")

/-- The module-level check
`if not all([GEMINI_API_KEY, BUCKET_NAME, DB_CONNECTION]): raise ValueError(...)`. -/
def startup (ev : EnvVars) : Except String Unit :=
  if truthy ev.gemini_api_key && truthy ev.gcs_bucket_name && truthy ev.database_url then
    .ok ()
  else
    .error "Missing required environment variables"

/-- Whether each of the three required variables is present in the
environment (regardless of its value). -/
def allPresent (ev : EnvVars) : Bool :=
  ev.gemini_api_key.isSome && ev.gcs_bucket_name.isSome && ev.database_url.isSome

/-- Whitespace characters stripped by Python `int()`. -/
def pySpace (c : Char) : Bool :=
  c == ' ' || c == '\t' || c == '\n' || c == '\r' || c == '\x0b' || c == '\x0c'

/-- Value of a non-empty all-digit character list, if it is one. -/
def digitsToNat (ds : List Char) : Option Nat :=
  if !ds.isEmpty && ds.all (fun c => c.isDigit) then
    some (ds.foldl (fun a c => a * 10 + (c.toNat - 48)) 0)
  else none

/-- Python `int(s)` on the common grammar: optional surrounding
whitespace, an optional sign, then decimal digits.  (Underscore
separators, accepted by CPython, are not modelled; the source only
applies this to the `DB_PORT` variable.) -/
def pythonInt (s : String) : Option Int :=
  let t := ((s.toList.dropWhile pySpace).reverse.dropWhile pySpace).reverse
  match t with
  | '-' :: ds => (digitsToNat ds).map (fun n => -(n : Int))
  | '+' :: ds => (digitsToNat ds).map (fun n => (n : Int))
  | ds => (digitsToNat ds).map (fun n => (n : Int))

/-- `PGVector.connection_string_from_db_params`: builds
`postgresql+<driver>://<user>:<password>@<host>:<port>/<database>`. -/
def connection_string_from_db_params (driver host : String) (port : Int)
    (database user password : String) : String :=
  "postgresql+" ++ driver ++ "://" ++ user ++ ":" ++ password ++ "@" ++ host ++
    ":" ++ toString port ++ "/" ++ database

/-- The vector-store handle produced by `PGVector(...)`: it is fully
determined by the connection string, the collection name and the
embedding model configured in the source. -/
structure PGVectorStore where
  connection_string : String
  collection_name : String
  embedding_model : String
deriving DecidableEq

/-- Embeds `initialize_vectorstore` from `app/main.py`: reads the
`DB_*` variables with their defaults, parses the port with `int()`
(raising `ValueError` on a malformed value), and returns the pgvector
handle for collection `document_vectors`. -/
def init_vectorstore (ev : EnvVars) : Except String PGVectorStore :=
  match (match ev.db_port with
         | none => Except.ok (5432 : Int)
         | some s =>
           match pythonInt s with
           | some n => Except.ok n
           | none => Except.error ("invalid literal for int() with base 10: " ++ s)) with
  | .error e => .error e
  | .ok port =>
    .ok { connection_string :=
            connection_string_from_db_params "psycopg2"
              (ev.db_host.getD "localhost") port
              (ev.db_name.getD "vectordb")
              (ev.db_user.getD "postgres")
              (ev.db_password.getD ""),
          collection_name := "document_vectors",
          embedding_model := "sentence-transformers/all-MiniLM-L6-v2" }

/-- Index of the last occurrence of `c` in `l`, if any. -/
def lastIndexOf (l : List Char) (c : Char) : Option Nat :=
  ((l.enum.filter (fun p => p.2 == c)).map (fun p => p.1)).getLast?

/-- POSIX `os.path.splitext`: split off the extension at the last dot,
provided it comes after the last path separator and the basename has at
least one non-dot character before it (so dotfiles have no extension). -/
def splitext (p : String) : String × String :=
  let l := p.toList
  let sepIndex : Int := match lastIndexOf l '/' with
    | some i => (i : Int)
    | none => -1
  let dotIndex : Int := match lastIndexOf l '.' with
    | some i => (i : Int)
    | none => -1
  if sepIndex < dotIndex then
    let start := (sepIndex + 1).toNat
    let dotN := dotIndex.toNat
    if (List.range (dotN - start)).any (fun k => !(l.get? (start + k) == some '.')) then
      (⟨l.take dotN⟩, ⟨l.drop dotN⟩)
    else (p, "")
  else (p, "")

/-- Python `str.lower()` restricted to its ASCII action, which is all
the dispatch sites compare against. -/
def pyLower (s : String) : String :=
  ⟨s.toList.map Char.toLower⟩

/-- `os.path.splitext(path)[1].lower()`, as computed at both dispatch
sites of the source. -/
def extOf (path : String) : String :=
  pyLower (splitext path).2

/-- The `SUPPORTED_FORMATS` table from `app/main.py`. -/
def SUPPORTED_FORMATS : List (String × Loader) :=
  [(".pdf", .pyPDFLoader),
   (".docx", .docx2txtLoader),
   (".doc", .docx2txtLoader),
   (".pptx", .unstructuredPowerPointLoader),
   (".ppt", .unstructuredPowerPointLoader),
   (".csv", .unstructuredCSVLoader),
   (".json", .jsonLoader),
   (".txt", .textLoader)]

/-- Embeds `get_file_loader`: look the lowercased extension up in
`SUPPORTED_FORMATS`, raising `ValueError` when absent. -/
def get_file_loader (file_path : String) : Except Exc Loader :=
  match SUPPORTED_FORMATS.lookup (extOf file_path) with
  | some L => .ok L
  | none => .error (.err ("Unsupported file format: " ++ extOf file_path))

/-- Core of Python `str.replace` for a non-empty pattern
`pat = p :: ps`: replace each leftmost non-overlapping occurrence.
The fuel argument only serves structural termination; it is always
called with more fuel than the length of the list. -/
def replaceCore (fuel : Nat) (p : Char) (ps repl : List Char) (l : List Char) : List Char :=
  match fuel, l with
  | 0, l => l
  | _ + 1, [] => []
  | f + 1, a :: rest =>
    if a == p && ps.isPrefixOf rest then
      repl ++ replaceCore f p ps repl (rest.drop ps.length)
    else
      a :: replaceCore f p ps repl rest

/-- Python `s.replace(pat, repl)`: all non-overlapping occurrences are
replaced left to right; an empty pattern interleaves the replacement
around every character. -/
def str_replace (s pat repl : String) : String :=
  match pat.toList with
  | [] => ⟨repl.toList ++ (s.toList.map (fun c => c :: repl.toList)).flatten⟩
  | p :: ps => ⟨replaceCore (s.toList.length + 1) p ps repl.toList s.toList⟩

/-- The fixed prompt template up to the question slot. -/
def PROMPT_HEAD : String :=
  "\n    You are a helpful and informative assistant that answers questions using the provided reference context.\n    Provide comprehensive answers while maintaining a conversational tone for non-technical audiences.\n    Break down complex concepts into simpler terms.\n    If the context doesn\x27t contain relevant information, acknowledge that and provide a general response.\n    \n    QUESTION: \x27"

/-- The fixed prompt template between the question and context slots. -/
def PROMPT_MID : String := "\x27\n    CONTEXT: \x27"

/-- The fixed prompt template after the context slot. -/
def PROMPT_TAIL : String := "\x27\n    \n    ANSWER:\n    "

/-- Embeds `generate_rag_prompt`: drops single and double quotes from
the context, replaces newlines with spaces, and substitutes the
question and the sanitized context into the fixed template. -/
def generate_rag_prompt (query context : String) : String :=
  let escaped := str_replace (str_replace (str_replace context "\x27" "") "\"" "") "\n" " "
  PROMPT_HEAD ++ query ++ PROMPT_MID ++ escaped ++ PROMPT_TAIL

/-- The opaque external collaborators of the service, each returning
either a value or the raised exception.  `mkTemp` stands for the name
`tempfile.NamedTemporaryFile(delete=False, suffix=ext)` picks for the
idx-th temporary file of a request, and `uuid4` for the idx-th draw of
`uuid.uuid4()`. -/
structure ExtOps where
  mkTemp : Nat → String → String
  uuid4 : Nat → String
  upload_from_filename : String → String → Except Exc String
  loader_load : Loader → String → Except Exc (List Document)
  split_documents : Nat → Nat → List Document → Except Exc (List Document)
  add_documents : PGVectorStore → List Document → Except Exc Unit
  similarity_search : PGVectorStore → String → Nat → Except Exc (List Document)
  generate_content : String → String → Except Exc String

/-- Embeds `upload_to_gcs`: upload the local file to the bucket blob
and return its public URL. -/
def upload_to_gcs (E : ExtOps) (file_path destination_blob_name : String) : Except Exc String :=
  E.upload_from_filename file_path destination_blob_name

/-- The body of `process_file` before its blanket `except`: loader
dispatch, load, split with chunk size 1000 and overlap 200, insert
into the vector store, and return the number of chunks. -/
def process_file_body (E : ExtOps) (file_path : String) (vs : PGVectorStore) :
    Except Exc Nat := do
  let LoaderClass ← get_file_loader file_path
  let documents ← E.loader_load LoaderClass file_path
  let docs ← E.split_documents 1000 200 documents
  let _ ← E.add_documents vs docs
  pure docs.length

/-- Embeds `process_file`: any exception from the body is re-raised as
`HTTPException(500, "Error processing file: " + str(e))`. -/
def process_file (E : ExtOps) (file_path : String) (vs : PGVectorStore) : Except Exc Nat :=
  match process_file_body E file_path vs with
  | .ok n => .ok n
  | .error e => .error (.httpExc 500 ("Error processing file: " ++ e.str))

/-- One uploaded file part: its client-supplied filename and bytes. -/
structure UploadedFileIn where
  filename : String
  content : String
deriving DecidableEq

/-- One entry of the `processed_files` response list. -/
structure ProcessedFile where
  filename : String
  chunks_created : Nat
  gcs_url : String
deriving DecidableEq

/-- The JSON body returned by a successful `POST /upload/`. -/
structure UploadResponse where
  status : String
  processed_files : List ProcessedFile
  total_chunks : Nat
deriving DecidableEq

/-- The loop body of `upload_files` over the remaining files.  `fs` is
the set of temporary files currently on disk (the request starts with
none); the loop returns the outcome of the `try` block together with
the temporary files still on disk when it exits.  A file whose
extension is not in `SUPPORTED_FORMATS` is skipped.  For a supported
file the loop writes the bytes to a fresh temporary file, uploads it
to `documents/<uuid>/<filename>`, processes it into the vector store,
appends the per-file record, and unlinks the temporary file; an
exception from any of these steps exits the loop at once, before the
`os.unlink` of the current temporary file. -/
def uploadLoop (E : ExtOps) (vs : PGVectorStore) (fs : List String) :
    List UploadedFileIn → Nat → Nat → List ProcessedFile →
    Except Exc (Nat × List ProcessedFile) × List String
  | [], _, total, processed => (.ok (total, processed), fs)
  | f :: rest, idx, total, processed =>
    let e := extOf f.filename
    if (SUPPORTED_FORMATS.lookup e).isNone then
      uploadLoop E vs fs rest idx total processed
    else
      let tmp := E.mkTemp idx e
      let fs1 := tmp :: fs
      let gcs_path := "documents/" ++ E.uuid4 idx ++ "/" ++ f.filename
      match upload_to_gcs E tmp gcs_path with
      | .error ex => (.error ex, fs1)
      | .ok url =>
        match process_file E tmp vs with
        | .error ex => (.error ex, fs1)
        | .ok n =>
          uploadLoop E vs (fs1.erase tmp) rest (idx + 1) (total + n)
            (processed ++ [⟨f.filename, n, url⟩])

/-- Embeds the `POST /upload/` handler `upload_files`.  The vector
store is initialized outside the `try`, so a `ValueError` from it
propagates unwrapped; any exception inside the loop is re-raised as
`HTTPException(500, "Error processing upload: " + str(e))`.  The second
component is the set of temporary files left on disk. -/
def upload_files (ev : EnvVars) (E : ExtOps) (files : List UploadedFileIn) :
    Except Exc UploadResponse × List String :=
  match init_vectorstore ev with
  | .error msg => (.error (.err msg), [])
  | .ok vs =>
    match uploadLoop E vs [] files 0 0 [] with
    | (.ok (total, processed), fs) => (.ok ⟨"success", processed, total⟩, fs)
    | (.error e, fs) =>
      (.error (.httpExc 500 ("Error processing upload: " ++ e.str)), fs)

/-- The JSON body returned by a successful `POST /ask/`. -/
structure AskResponse where
  question : String
  answer : String
deriving DecidableEq

/-- Trace of the collaborator calls made by one `/ask/` request:
each similarity search as (store handle, query, k), and the prompt of
each generative-model call. -/
structure AskTrace where
  searchCalls : List (PGVectorStore × String × Nat)
  generateCalls : List String
deriving DecidableEq

/-- Embeds the `POST /ask/` handler `ask_question`: initialize the
vector store, run one similarity search with `k=6`, join the retrieved
chunk texts with newlines, build the prompt, and send it to the
`gemini-pro` model; any exception is re-raised as
`HTTPException(500, "Error processing question: " + str(e))`. -/
def ask_question (ev : EnvVars) (E : ExtOps) (question : String) :
    Except Exc AskResponse × AskTrace :=
  match init_vectorstore ev with
  | .error msg =>
    (.error (.httpExc 500 ("Error processing question: " ++ msg)), ⟨[], []⟩)
  | .ok vs =>
    match E.similarity_search vs question 6 with
    | .error e =>
      (.error (.httpExc 500 ("Error processing question: " ++ e.str)),
       ⟨[(vs, question, 6)], []⟩)
    | .ok results =>
      let context := String.intercalate "\n" (results.map (fun d => d.page_content))
      let prompt := generate_rag_prompt question context
      match E.generate_content "gemini-pro" prompt with
      | .error e =>
        (.error (.httpExc 500 ("Error processing question: " ++ e.str)),
         ⟨[(vs, question, 6)], [prompt]⟩)
      | .ok answer =>
        (.ok ⟨question, answer⟩, ⟨[(vs, question, 6)], [prompt]⟩)

/-- Whether the upload loop treats a file as supported (its lowercased
extension is a key of `SUPPORTED_FORMATS`). -/
def supportedFile (f : UploadedFileIn) : Bool :=
  (SUPPORTED_FORMATS.lookup (extOf f.filename)).isSome

/-- A concrete environment with the three required variables set and
all optional `DB_*` variables unset. -/
def ev0 : EnvVars := ⟨some "k", some "b", some "d", none, none, none, none, none⟩

/-- The vector-store handle `init_vectorstore` yields on `ev0`. -/
def vs0 : PGVectorStore :=
  ⟨"postgresql+psycopg2://postgres:@localhost:5432/vectordb", "document_vectors",
   "sentence-transformers/all-MiniLM-L6-v2"⟩

/-- A concrete document used by the concrete collaborator instances. -/
def d0 : Document := ⟨"some text"⟩

/-- Concrete collaborators on which every external operation
succeeds: each load yields one document, each split yields three
chunks, and the model answers "ans". -/
def E0 : ExtOps :=
  { mkTemp := fun _ e => "/tmp/tmpq8" ++ e,
    uuid4 := fun _ => "u-u-i-d",
    upload_from_filename := fun _ d => .ok ("https://storage.googleapis.com/b/" ++ d),
    loader_load := fun _ _ => .ok [d0],
    split_documents := fun _ _ _ => .ok [d0, d0, d0],
    add_documents := fun _ _ => .ok (),
    similarity_search := fun _ _ _ => .ok [],
    generate_content := fun _ _ => .ok "ans" }

/-- Concrete collaborators identical to `E0` except that the blob
upload raises. -/
def Efail : ExtOps :=
  { E0 with upload_from_filename := fun _ _ => .error (.err "gcs unavailable") }

/-- A concrete environment in which all three required variables are
present but the API key is set to the empty string. -/
def evC8 : EnvVars :=
  ⟨some "", some "bucket", some "postgres://db", none, none, none, none, none⟩

theorem lookup_supported_eq_none (e : String)
    (h1 : e ≠ ".pdf") (h2 : e ≠ ".docx") (h3 : e ≠ ".doc") (h4 : e ≠ ".pptx")
    (h5 : e ≠ ".ppt") (h6 : e ≠ ".csv") (h7 : e ≠ ".json") (h8 : e ≠ ".txt") :
    SUPPORTED_FORMATS.lookup e = none := by
  simp [SUPPORTED_FORMATS, List.lookup, beq_eq_false_iff_ne.mpr h1,
    beq_eq_false_iff_ne.mpr h2, beq_eq_false_iff_ne.mpr h3, beq_eq_false_iff_ne.mpr h4,
    beq_eq_false_iff_ne.mpr h5, beq_eq_false_iff_ne.mpr h6, beq_eq_false_iff_ne.mpr h7,
    beq_eq_false_iff_ne.mpr h8]

theorem supported_key_cases (e : String)
    (h : (SUPPORTED_FORMATS.lookup e).isSome = true) :
    e = ".pdf" ∨ e = ".docx" ∨ e = ".doc" ∨ e = ".pptx" ∨ e = ".ppt" ∨ e = ".csv" ∨
      e = ".json" ∨ e = ".txt" := by
  by_cases h1 : e = ".pdf"; · exact Or.inl h1
  by_cases h2 : e = ".docx"; · exact Or.inr (Or.inl h2)
  by_cases h3 : e = ".doc"; · exact Or.inr (Or.inr (Or.inl h3))
  by_cases h4 : e = ".pptx"; · exact Or.inr (Or.inr (Or.inr (Or.inl h4)))
  by_cases h5 : e = ".ppt"; · exact Or.inr (Or.inr (Or.inr (Or.inr (Or.inl h5))))
  by_cases h6 : e = ".csv"; · exact Or.inr (Or.inr (Or.inr (Or.inr (Or.inr (Or.inl h6)))))
  by_cases h7 : e = ".json"
  · exact Or.inr (Or.inr (Or.inr (Or.inr (Or.inr (Or.inr (Or.inl h7))))))
  by_cases h8 : e = ".txt"
  · exact Or.inr (Or.inr (Or.inr (Or.inr (Or.inr (Or.inr (Or.inr h8))))))
  rw [lookup_supported_eq_none e h1 h2 h3 h4 h5 h6 h7 h8] at h
  exact absurd h (by decide)

theorem init_ignores_db_url (ev : EnvVars) (x : Option String) :
    init_vectorstore { ev with database_url := x } = init_vectorstore ev := rfl

theorem uploadLoop_all_ok (E : ExtOps) (vs : PGVectorStore)
    (htmp : ∀ idx e, (SUPPORTED_FORMATS.lookup e).isSome = true →
      extOf (E.mkTemp idx e) = e)
    (hup : ∀ p d, ∃ u, E.upload_from_filename p d = .ok u)
    (hload : ∀ L p, ∃ ds, E.loader_load L p = .ok ds)
    (hsplit : ∀ ds, ∃ cs, E.split_documents 1000 200 ds = .ok cs)
    (hadd : ∀ v ds, E.add_documents v ds = .ok ()) :
    ∀ (files : List UploadedFileIn) (fs : List String) (idx total : Nat)
      (processed : List ProcessedFile),
      ∃ newpf : List ProcessedFile,
        uploadLoop E vs fs files idx total processed =
          (.ok (total + (newpf.map (fun p => p.chunks_created)).sum, processed ++ newpf), fs)
        ∧ newpf.length = (files.filter supportedFile).length := by
  intro files
  induction files with
  | nil =>
    intro fs idx total processed
    exact ⟨[], by simp [uploadLoop]⟩
  | cons f rest ih =>
    intro fs idx total processed
    by_cases hs : supportedFile f
    · have hsome : (SUPPORTED_FORMATS.lookup (extOf f.filename)).isSome = true := hs
      obtain ⟨L, hL⟩ := Option.isSome_iff_exists.mp hsome
      have hext : extOf (E.mkTemp idx (extOf f.filename)) = extOf f.filename :=
        htmp idx (extOf f.filename) hsome
      obtain ⟨u, hu⟩ := hup (E.mkTemp idx (extOf f.filename))
        ("documents/" ++ E.uuid4 idx ++ "/" ++ f.filename)
      obtain ⟨ds, hd⟩ := hload L (E.mkTemp idx (extOf f.filename))
      obtain ⟨cs, hc⟩ := hsplit ds
      have hpf : process_file E (E.mkTemp idx (extOf f.filename)) vs = .ok cs.length := by
        simp [process_file, process_file_body, get_file_loader, hext, hL, hd, hc, hadd,
          bind, Except.bind, pure, Except.pure]
      obtain ⟨newpf, hloop, hlen⟩ :=
        ih fs (idx + 1) (total + cs.length) (processed ++ [⟨f.filename, cs.length, u⟩])
      refine ⟨⟨f.filename, cs.length, u⟩ :: newpf, ?_, ?_⟩
      · simp only [uploadLoop, hL, Option.isSome_some, Option.isNone_some, if_false,
          upload_to_gcs, hu, hpf, List.erase_cons_head]
        rw [hloop]
        simp [Nat.add_assoc]
      · simp [List.filter_cons, hs, hlen]
    · have hnone : SUPPORTED_FORMATS.lookup (extOf f.filename) = none := by
        cases hcase : SUPPORTED_FORMATS.lookup (extOf f.filename) with
        | none => rfl
        | some L => exact absurd (by simp [supportedFile, hcase]) hs
      obtain ⟨newpf, hloop, hlen⟩ := ih fs idx total processed
      refine ⟨newpf, ?_, ?_⟩
      · simp only [uploadLoop, hnone, Option.isNone_none, if_true]
        exact hloop
      · simp [List.filter_cons, hs, hlen]

/-- Claim C2: any failure in steps 2-6 of the per-file loop (temp
write, blob persist, extraction, splitting, or vector-store insertion,
all of which surface as an exception from the loop) aborts the whole
batch request and is reported as a single HTTP 500 whose detail wraps
the exception message; no partial-success response is returned and no
retry is performed. -/
theorem upload_failure_single_500 (ev : EnvVars) (E : ExtOps) (files : List UploadedFileIn)
    (vs : PGVectorStore) (e : Exc)
    (hv : init_vectorstore ev = .ok vs)
    (h : (uploadLoop E vs [] files 0 0 []).1 = .error e) :
    (upload_files ev E files).1 =
      .error (.httpExc 500 ("Error processing upload: " ++ e.str)) := by
  rcases hu : uploadLoop E vs [] files 0 0 [] with ⟨r, fs⟩
  replace h : r = Except.error e := by rw [hu] at h; exact h
  subst h
  simp only [upload_files, hv, hu]

set_option maxRecDepth 100000

/-- Witness for C2 at a concrete run: a single supported file whose
blob upload raises. -/
theorem upload_failure_single_500_witness :
    (upload_files ev0 Efail [⟨"b.pdf", "y"⟩]).1 =
      .error (.httpExc 500 ("Error processing upload: " ++ (Exc.err "gcs unavailable").str)) :=
  upload_failure_single_500 ev0 Efail [⟨"b.pdf", "y"⟩] vs0 (.err "gcs unavailable")
    (by decide) (by decide)

/-- Claim C1 (refuted, code bug): the spec requires every temporary
file to be removed on every exit path, but the handler only unlinks
the temporary file on the success path: on the concrete failing run
(blob upload raises for a single `.txt` file) the request fails with a
500 and the temporary file is still on disk, while the same upload
with working collaborators leaves no temporary file. -/
theorem upload_leaves_tmpfile_on_failure :
    (upload_files ev0 Efail [⟨"a.txt", "x"⟩]).1 =
      .error (.httpExc 500 "Error processing upload: gcs unavailable")
    ∧ (upload_files ev0 Efail [⟨"a.txt", "x"⟩]).2 = ["/tmp/tmpq8.txt"]
    ∧ (upload_files ev0 E0 [⟨"a.txt", "x"⟩]).2 = [] := by
  decide

/-- Claim C3: prompt assembly removes every single-quote and
double-quote character from the context and replaces newlines by
spaces before substituting it into the fixed template; on the spec
test vector the rendered context fragment is exactly
"He said hi Bye", and the question is substituted literally. -/
theorem prompt_sanitizes_context (q : String) :
    generate_rag_prompt q "He said \"hi\"\nBye\x27" =
      PROMPT_HEAD ++ q ++ PROMPT_MID ++ "He said hi Bye" ++ PROMPT_TAIL := by
  have h : str_replace (str_replace (str_replace "He said \"hi\"\nBye\x27" "\x27" "") "\"" "")
      "\n" " " = "He said hi Bye" := by decide
  simp only [generate_rag_prompt, h]

/-- Claim C4: when the vector store initializes and every external
step succeeds, the upload request succeeds, `processed_files` has one
entry per supported file (so length N when all N files are supported,
and length K when one unsupported file accompanies K supported ones),
and `total_chunks` is the sum of the per-file chunk counts. -/
theorem upload_success_counts (ev : EnvVars) (E : ExtOps) (files : List UploadedFileIn)
    (vs : PGVectorStore)
    (hv : init_vectorstore ev = .ok vs)
    (htmp : ∀ idx e, (SUPPORTED_FORMATS.lookup e).isSome = true →
      extOf (E.mkTemp idx e) = e)
    (hup : ∀ p d, ∃ u, E.upload_from_filename p d = .ok u)
    (hload : ∀ L p, ∃ ds, E.loader_load L p = .ok ds)
    (hsplit : ∀ ds, ∃ cs, E.split_documents 1000 200 ds = .ok cs)
    (hadd : ∀ v ds, E.add_documents v ds = .ok ()) :
    ∃ resp : UploadResponse,
      (upload_files ev E files).1 = .ok resp ∧
      resp.status = "success" ∧
      resp.processed_files.length = (files.filter supportedFile).length ∧
      resp.total_chunks = (resp.processed_files.map (fun p => p.chunks_created)).sum := by
  obtain ⟨newpf, hloop, hlen⟩ :=
    uploadLoop_all_ok E vs htmp hup hload hsplit hadd files [] 0 0 []
  refine ⟨⟨"success", newpf, (newpf.map (fun p => p.chunks_created)).sum⟩, ?_, rfl, ?_, ?_⟩
  · simp [upload_files, hv, hloop]
  · simpa using hlen
  · rfl

/-- Witness for C4 at a concrete run: two supported files (one with an
uppercase extension) and one unsupported file, all collaborators
succeeding. -/
theorem upload_success_counts_witness :
    ∃ resp : UploadResponse,
      (upload_files ev0 E0 [⟨"a.txt", "x"⟩, ⟨"b.PDF", "y"⟩, ⟨"c.xyz", "z"⟩]).1 = .ok resp ∧
      resp.status = "success" ∧
      resp.processed_files.length =
        (([⟨"a.txt", "x"⟩, ⟨"b.PDF", "y"⟩, ⟨"c.xyz", "z"⟩] : List UploadedFileIn).filter
          supportedFile).length ∧
      resp.total_chunks = (resp.processed_files.map (fun p => p.chunks_created)).sum :=
  upload_success_counts ev0 E0 [⟨"a.txt", "x"⟩, ⟨"b.PDF", "y"⟩, ⟨"c.xyz", "z"⟩] vs0
    (by decide)
    (fun idx e h => by
      have hx : E0.mkTemp idx e = "/tmp/tmpq8" ++ e := rfl
      rw [hx]
      rcases supported_key_cases e h with h1 | h1 | h1 | h1 | h1 | h1 | h1 | h1 <;>
        subst h1 <;> decide)
    (fun p d => ⟨"https://storage.googleapis.com/b/" ++ d, rfl⟩)
    (fun L p => ⟨[d0], rfl⟩)
    (fun ds => ⟨[d0, d0, d0], rfl⟩)
    (fun v ds => rfl)

/-- Claim C5: for every filename whose lowercased extension is one of
pdf, docx, doc, pptx, ppt, csv, json, txt, the dispatcher returns a
loader capability; for every other extension the batch upload loop
skips the file without raising and continues with the remaining
files. -/
theorem dispatcher_and_skip (path bytes : String) (E : ExtOps) (vs : PGVectorStore)
    (fs : List String) (rest : List UploadedFileIn) (idx total : Nat)
    (processed : List ProcessedFile) :
    (extOf path ∈ [".pdf", ".docx", ".doc", ".pptx", ".ppt", ".csv", ".json", ".txt"] →
      ∃ L, get_file_loader path = .ok L)
    ∧ (extOf path ∉ [".pdf", ".docx", ".doc", ".pptx", ".ppt", ".csv", ".json", ".txt"] →
      uploadLoop E vs fs (⟨path, bytes⟩ :: rest) idx total processed
        = uploadLoop E vs fs rest idx total processed) := by
  constructor
  · intro hmem
    simp only [List.mem_cons, List.not_mem_nil, or_false] at hmem
    rcases hmem with h1 | h1 | h1 | h1 | h1 | h1 | h1 | h1
    · exact ⟨.pyPDFLoader, by unfold get_file_loader; rw [h1]; decide⟩
    · exact ⟨.docx2txtLoader, by unfold get_file_loader; rw [h1]; decide⟩
    · exact ⟨.docx2txtLoader, by unfold get_file_loader; rw [h1]; decide⟩
    · exact ⟨.unstructuredPowerPointLoader, by unfold get_file_loader; rw [h1]; decide⟩
    · exact ⟨.unstructuredPowerPointLoader, by unfold get_file_loader; rw [h1]; decide⟩
    · exact ⟨.unstructuredCSVLoader, by unfold get_file_loader; rw [h1]; decide⟩
    · exact ⟨.jsonLoader, by unfold get_file_loader; rw [h1]; decide⟩
    · exact ⟨.textLoader, by unfold get_file_loader; rw [h1]; decide⟩
  · intro hnot
    simp only [List.mem_cons, List.not_mem_nil, or_false, not_or] at hnot
    obtain ⟨n1, n2, n3, n4, n5, n6, n7, n8⟩ := hnot
    have hnone : SUPPORTED_FORMATS.lookup (extOf path) = none :=
      lookup_supported_eq_none (extOf path) n1 n2 n3 n4 n5 n6 n7 n8
    simp only [uploadLoop, hnone, Option.isNone_none, if_true]

/-- Witness for C5 at a concrete run: a file with the unsupported
extension xyz is skipped by the upload loop. -/
theorem dispatcher_and_skip_witness :
    uploadLoop E0 vs0 [] [⟨"notes.xyz", "b"⟩] 0 0 [] = uploadLoop E0 vs0 [] [] 0 0 [] :=
  (dispatcher_and_skip "notes.xyz" "b" E0 vs0 [] [] 0 0 []).2 (by decide)

/-- Claim C6: whenever the vector store initializes, a question
request issues exactly one similarity search, with the question as the
query and exactly k = 6 requested results. -/
theorem ask_single_search_k6 (ev : EnvVars) (E : ExtOps) (q : String) (vs : PGVectorStore)
    (hv : init_vectorstore ev = .ok vs) :
    (ask_question ev E q).2.searchCalls = [(vs, q, 6)] := by
  simp only [ask_question, hv]
  rcases h1 : E.similarity_search vs q 6 with e | rs
  · simp [h1]
  · rcases h2 : E.generate_content "gemini-pro"
      (generate_rag_prompt q (String.intercalate "\n" (rs.map (fun d => d.page_content)))) with e | a
    · simp [h1, h2]
    · simp [h1, h2]

/-- Witness for C6 at a concrete run. -/
theorem ask_single_search_k6_witness :
    (ask_question ev0 E0 "What is X?").2.searchCalls = [(vs0, "What is X?", 6)] :=
  ask_single_search_k6 ev0 E0 "What is X?" vs0 (by decide)

/-- Claim C7: the context sent to the model is the retrieved chunk
texts joined with newline separators in store order (the single
generative call uses exactly that prompt), and when the store returns
zero matches the context is the empty string and the pipeline still
calls the model and returns its answer. -/
theorem ask_context_join_and_empty (ev : EnvVars) (E : ExtOps) (q : String)
    (vs : PGVectorStore) (rs : List Document)
    (hv : init_vectorstore ev = .ok vs)
    (hs : E.similarity_search vs q 6 = .ok rs) :
    (ask_question ev E q).2.generateCalls =
      [generate_rag_prompt q (String.intercalate "\n" (rs.map (fun d => d.page_content)))]
    ∧ (rs = [] → ∀ a, E.generate_content "gemini-pro" (generate_rag_prompt q "") = .ok a →
        (ask_question ev E q).1 = .ok ⟨q, a⟩) := by
  constructor
  · simp only [ask_question, hv, hs]
    rcases h2 : E.generate_content "gemini-pro"
      (generate_rag_prompt q (String.intercalate "\n" (rs.map (fun d => d.page_content)))) with e | a
    · simp [h2]
    · simp [h2]
  · intro hrs a hg
    subst hrs
    have hctx : String.intercalate "\n" (([] : List Document).map (fun d => d.page_content)) = "" :=
      rfl
    simp only [ask_question, hv, hs, hctx, hg]

/-- Witness for C7 at a concrete run with zero matches. -/
theorem ask_context_join_and_empty_witness :
    ((ask_question ev0 E0 "What is X?").2.generateCalls =
      [generate_rag_prompt "What is X?"
        (String.intercalate "\n" (([] : List Document).map (fun d => d.page_content)))])
    ∧ (ask_question ev0 E0 "What is X?").1 = .ok ⟨"What is X?", "ans"⟩ :=
  ⟨(ask_context_join_and_empty ev0 E0 "What is X?" vs0 [] (by decide) rfl).1,
   (ask_context_join_and_empty ev0 E0 "What is X?" vs0 [] (by decide) rfl).2 rfl "ans" rfl⟩

/-- Counterexample to claim C8 as stated: in `evC8` all three required
variables are present in the environment, yet startup fails because
the API key is the empty string. -/
theorem startup_present_but_empty_fails :
    allPresent evC8 = true ∧ startup evC8 = .error "Missing required environment variables" := by
  decide

/-- Claim C8 (amended): startup proceeds exactly when each of the
generative-model API key, the blob-storage bucket name, and the
vector-store connection string is present in the environment with a
non-empty value; if any is absent or empty, startup fails fatally. -/
theorem startup_iff_present_nonempty (ev : EnvVars) :
    startup ev = .ok () ↔
      ((∃ s, ev.gemini_api_key = some s ∧ s ≠ "") ∧
       (∃ s, ev.gcs_bucket_name = some s ∧ s ≠ "") ∧
       (∃ s, ev.database_url = some s ∧ s ≠ "")) := by
  cases hg : ev.gemini_api_key <;> cases hb : ev.gcs_bucket_name <;> cases hd : ev.database_url <;>
    simp [startup, truthy, hg, hb, hd]

/-- Claim C9: the `DATABASE_URL` value, although required to be
non-empty at startup, does not influence behavior: two environments
differing only in a non-empty `DATABASE_URL` agree on the startup
check and on the results of every question and upload request (the
connection is built exclusively from the `DB_*` variables). -/
theorem database_url_noninterference (ev : EnvVars) (u₁ u₂ : String) (E : ExtOps)
    (q : String) (files : List UploadedFileIn)
    (h₁ : u₁ ≠ "") (h₂ : u₂ ≠ "") :
    startup { ev with database_url := some u₁ } = startup { ev with database_url := some u₂ }
    ∧ ask_question { ev with database_url := some u₁ } E q
        = ask_question { ev with database_url := some u₂ } E q
    ∧ upload_files { ev with database_url := some u₁ } E files
        = upload_files { ev with database_url := some u₂ } E files := by
  refine ⟨?_, ?_, ?_⟩
  · simp [startup, truthy, h₁, h₂]
  · unfold ask_question
    rw [init_ignores_db_url ev (some u₁), init_ignores_db_url ev (some u₂)]
  · unfold upload_files
    rw [init_ignores_db_url ev (some u₁), init_ignores_db_url ev (some u₂)]

/-- Witness for C9 at concrete environments and requests. -/
theorem database_url_noninterference_witness :
    startup { ev0 with database_url := some "a" } = startup { ev0 with database_url := some "b" }
    ∧ ask_question { ev0 with database_url := some "a" } E0 "q"
        = ask_question { ev0 with database_url := some "b" } E0 "q"
    ∧ upload_files { ev0 with database_url := some "a" } E0 []
        = upload_files { ev0 with database_url := some "b" } E0 [] :=
  database_url_noninterference ev0 "a" "b" E0 "q" [] (by decide) (by decide)

/-- Claim C10: when the vector store initializes, uploading the empty
list of files is not rejected: the handler returns status "success"
with an empty `processed_files` list and zero `total_chunks`, leaving
no temporary files. -/
theorem upload_empty_success (ev : EnvVars) (E : ExtOps) (vs : PGVectorStore)
    (hv : init_vectorstore ev = .ok vs) :
    upload_files ev E [] = (.ok ⟨"success", [], 0⟩, []) := by
  unfold upload_files
  rw [hv]
  rfl

/-- Witness for C10 at a concrete environment. -/
theorem upload_empty_success_witness :
    upload_files ev0 E0 [] = (.ok ⟨"success", [], 0⟩, []) :=
  upload_empty_success ev0 E0 vs0 (by decide)
